import Mathlib

set_option maxRecDepth 8000

/-!
Verification of the bitvavo-scalper trading bot core.

The Python sources are embedded shallowly: floats become rationals,
dictionaries become association lists, the durable JSON files become
explicit fields of the state, and the nondeterministic outcome of a live
order submission becomes an explicit parameter.  Every definition follows
the corresponding Python function in `src/bot/state_manager.py`,
`src/bot/trading_utils.py` and `src/bot/scalping_bot.py`.
-/

/-- An open position as stored by `StateManager`: the entry price, the
quantity, and the opening timestamp (`datetime.now().isoformat()` is
abstracted to a natural number). -/
structure Position where
  price : ℚ
  quantity : ℚ
  timestamp : ℕ
deriving DecidableEq, Repr

/-- One record of the append-only trades store written by
`StateManager.log_trade`. -/
structure Trade where
  pair : String
  side : String
  price : ℚ
  quantity : ℚ
  profit : Option ℚ
  timestamp : ℕ
deriving DecidableEq, Repr

/-- The fields of one entry of `bitvavo.markets()` that
`StateManager.adjust_quantity` reads: the market name, the minimum order
size in base asset, and the quantity precision in decimal places. -/
structure Market where
  market : String
  minOrderInBaseAsset : ℚ
  decimalPlacesBaseAsset : ℕ
deriving DecidableEq, Repr

/-- The fields of an order-placement response that `StateManager.buy` and
`StateManager.sell` inspect: `order.get("status")` and whether
`"orderId" in order`.  The remaining fields of the response are only
logged. -/
structure Order where
  status : Option String
  orderId : Option String
deriving DecidableEq, Repr

/-- The per-pair state of a `StateManager` together with the contents of
the two durable stores: `position` is the single in-memory slot
(`self.position`), `portfolio` the in-memory mapping (`self.portfolio`),
`portfolioFile` the contents of `data/portfolio.json`, and `trades` the
contents of `data/trades.json`. -/
structure BotState where
  pair : String
  demo_mode : Bool
  position : Option Position
  portfolio : List (String × Position)
  portfolioFile : List (String × Position)
  trades : List Trade
deriving DecidableEq, Repr

/-- Python dictionary assignment `d[k] = v`: replace the entry when the key
is present, append it otherwise (keys of a dictionary are unique). -/
def setKey (l : List (String × Position)) (k : String) (v : Position) :
    List (String × Position) :=
  if l.any (fun e => e.1 == k) then
    l.map (fun e => if e.1 == k then (k, v) else e)
  else l ++ [(k, v)]

/-- Python dictionary deletion `del d[k]` (keys are unique, so filtering
the key out removes the one entry holding it). -/
def delKey (l : List (String × Position)) (k : String) :
    List (String × Position) :=
  l.filter (fun e => !(e.1 == k))

/-- Python `round` to an integer: round half to even. -/
def pyRoundInt (x : ℚ) : ℤ :=
  let f := ⌊x⌋
  let r := x - (f : ℚ)
  if r < 1/2 then f
  else if 1/2 < r then f + 1
  else if f % 2 = 0 then f else f + 1

/-- Python `round(x, ndigits)`: round half to even at `ndigits` decimal
places (the binary-float representation artifacts of CPython are not
modelled; rounding is taken at exact decimal values). -/
def pyRound (x : ℚ) (ndigits : ℕ) : ℚ :=
  (pyRoundInt (x * (10 : ℚ) ^ ndigits) : ℚ) / (10 : ℚ) ^ ndigits

/-- The first entry of the market list whose `market` field is the pair,
as the `for market in market_info` loop of `adjust_quantity` finds it. -/
def findMarket (markets : List Market) (pair : String) : Option Market :=
  markets.find? (fun m => m.market == pair)

namespace StateManager

/-- `StateManager.adjust_quantity`: when market info for the pair exists,
return `max(minOrderInBaseAsset, round(quantity, decimalPlacesBaseAsset))`;
otherwise return the original quantity. -/
def adjust_quantity (markets : List Market) (pair : String) (quantity : ℚ) : ℚ :=
  match findMarket markets pair with
  | some m => max m.minOrderInBaseAsset (pyRound quantity m.decimalPlacesBaseAsset)
  | none => quantity

/-- `StateManager.has_position`: `self.position is not None`. -/
def has_position (s : BotState) : Bool :=
  s.position.isSome

/-- The number of open positions a single `StateManager` holds in memory
(the source keeps one optional slot, `self.position`). -/
def openPositionCount (s : BotState) : ℕ :=
  s.position.toList.length

/-- `TradingUtils.place_order`: in demo mode the simulated response
`{"status": "demo", ...}` is returned without contacting the venue;
otherwise the venue's response (a parameter here) is returned. -/
def place_order (demo_mode : Bool) (live : Order) : Order :=
  if demo_mode then { status := some "demo", orderId := none } else live

/-- `StateManager.buy(price, budget, fee_percentage)`.  Returns the new
state and whether an order was submitted to `place_order`.  A pre-existing
position or a non-positive adjusted quantity returns unchanged without
submitting; a demo response and a response without `orderId` leave the
state unchanged; a response holding an `orderId` records the position,
updates the portfolio mapping and saves it to the durable file. -/
def buy (s : BotState) (markets : List Market) (price budget fee_percentage : ℚ)
    (now : ℕ) (live : Order) : BotState × Bool :=
  if s.position.isSome then (s, false)
  else
    let quantity := budget / price * (1 - fee_percentage / 100)
    let quantity := adjust_quantity markets s.pair quantity
    if quantity ≤ 0 then (s, false)
    else
      let order := place_order s.demo_mode live
      if order.status = some "demo" then (s, true)
      else if order.orderId.isSome then
        let pos : Position := { price := price, quantity := quantity, timestamp := now }
        ({ s with position := some pos,
                  portfolio := setKey s.portfolio s.pair pos,
                  portfolioFile := setKey s.portfolio s.pair pos }, true)
      else (s, true)

/-- `StateManager.sell(price, fee_percentage)`.  Returns the new state and
whether an order was submitted.  No position or a non-positive adjusted
quantity returns unchanged without submitting; a demo response and a
response without `orderId` leave the state unchanged; a response holding
an `orderId` clears the position, deletes the pair from the portfolio
mapping and saves it to the durable file. -/
def sell (s : BotState) (markets : List Market) (price fee_percentage : ℚ)
    (live : Order) : BotState × Bool :=
  match s.position with
  | none => (s, false)
  | some pos =>
    let quantity := adjust_quantity markets s.pair pos.quantity
    if quantity ≤ 0 then (s, false)
    else
      let order := place_order s.demo_mode live
      if order.status = some "demo" then (s, true)
      else if order.orderId.isSome then
        ({ s with position := none,
                  portfolio := delKey s.portfolio s.pair,
                  portfolioFile := delKey s.portfolio s.pair }, true)
      else (s, true)

/-- `StateManager.calculate_profit`, parameterized by the fields of the
position it reads: `revenue = current_price*quantity*(1-fee/100)`,
`cost_basis = entry_price*quantity`, result `(revenue-cost)/cost*100`. -/
def calculate_profit (entry_price quantity current_price fee_percentage : ℚ) : ℚ :=
  let cost_basis := entry_price * quantity
  let revenue := current_price * quantity * (1 - fee_percentage / 100)
  let profit := revenue - cost_basis
  profit / cost_basis * 100

/-- `StateManager.log_trade`: append one record to the trades store. -/
def log_trade (s : BotState) (t : Trade) : BotState :=
  { s with trades := s.trades ++ [t] }

/-- Modelled from the spec: `StateManager.buy_dynamic(price, quantity, fee)`
is invoked by the bot's entry branch but its definition is absent from the
sources (only this caller exists).  Per the spec, an entry whose final
quantity is `<= 0` or below the venue minimum is rejected with no order
sent; otherwise the order goes through the gateway and only a filled
response records the position durably. -/
def buy_dynamic (s : BotState) (minQty : ℚ) (price quantity fee_percentage : ℚ)
    (now : ℕ) (live : Order) : BotState × Bool :=
  if quantity ≤ 0 ∨ quantity < minQty then (s, false)
  else
    let order := place_order s.demo_mode live
    if order.status = some "demo" then (s, true)
    else if order.orderId.isSome then
      let pos : Position := { price := price, quantity := quantity, timestamp := now }
      ({ s with position := some pos,
                portfolio := setKey s.portfolio s.pair pos,
                portfolioFile := setKey s.portfolio s.pair pos }, true)
    else (s, true)

end StateManager

/-- Upward price differences of consecutive samples, clipped at zero
(the gain series of an RSI computation). -/
def gains (l : List ℚ) : List ℚ :=
  (l.zip l.tail).map (fun pr => max (pr.2 - pr.1) 0)

/-- Downward price differences of consecutive samples, clipped at zero
(the loss series of an RSI computation). -/
def losses (l : List ℚ) : List ℚ :=
  (l.zip l.tail).map (fun pr => max (pr.1 - pr.2) 0)

/-- Wilder smoothing over a window `w`: the plain average of the first `w`
samples, then recursively `avg := (avg*(w-1) + x)/w` for each later
sample.  Shorter series are averaged plainly. -/
def wilderAvg (w : ℕ) (l : List ℚ) : ℚ :=
  if l.length < w ∨ w = 0 then l.sum / (max l.length 1 : ℚ)
  else
    (l.drop w).foldl (fun avg x => (avg * ((w : ℚ) - 1) + x) / (w : ℚ))
      ((l.take w).sum / (w : ℚ))

namespace TradingUtils

/-- `TradingUtils.calculate_rsi(price_history, window_size)`.  The guard —
`None` when fewer than `window_size` samples are present — is the source's.
Modelled from the spec: the body delegates to the external ta library's
RSIIndicator, which is not part of this repository; per the spec it is
Wilder smoothing of average gain over average loss,
`RSI = 100 - 100/(1 + RS)`, with `RSI = 100` when the average loss is
zero. -/
def calculate_rsi (price_history : List ℚ) (window_size : ℕ) : Option ℚ :=
  if price_history.length < window_size then none
  else
    let g := wilderAvg window_size (gains price_history)
    let lo := wilderAvg window_size (losses price_history)
    some (if lo = 0 then 100 else 100 - 100 / (1 + g / lo))

end TradingUtils

/-- The configuration values `ScalpingBot.run` reads for one pair;
`pair_budget` stands for `self.pair_budgets[pair]`, computed at startup as
`TOTAL_BUDGET * PORTFOLIO_ALLOCATION[pair] / 100`. -/
structure Config where
  rsi_sell_threshold : ℚ
  rsi_buy_threshold : ℚ
  minimum_profit_percentage : ℚ
  max_trades_per_pair : ℕ
  trade_fee_percentage : ℚ
  stop_loss_percentage : ℚ
  stop_loss_max_retries : ℕ
  stop_loss_wait_time : ℕ
  total_budget : ℚ
  risk_percentage : ℚ
  atr_multiplier : ℚ
  pair_budget : ℚ
deriving DecidableEq, Repr

/-- The order-affecting calls one evaluation cycle of `ScalpingBot.run`
makes for a pair, in program order: `sell_position_with_retry` for a
stoploss exit, `sell_position` for a profit-take exit, and `buy_dynamic`
with the sized quantity for an entry. -/
inductive BotAction where
  | sellRetry (pos : Position) (max_retries wait_time : ℕ)
  | sellProfit (pos : Position)
  | buyOrder (quantity : ℚ)
deriving DecidableEq, Repr

/-- Whether an action is a stoploss exit (the retrying sell path). -/
def BotAction.isStoplossExit : BotAction → Bool
  | .sellRetry _ _ _ => true
  | _ => false

namespace ScalpingBot

/-- The stop level of `ScalpingBot.run`: `position["price"] - atr_value *
atr_multiplier` when the ATR is defined for the cycle, else the fallback
`position["price"] * (1 + STOP_LOSS_PERCENTAGE / 100)`. -/
def dynamic_stoploss (cfg : Config) (entry_price : ℚ) (atr_value : Option ℚ) : ℚ :=
  match atr_value with
  | some atr => entry_price - atr * cfg.atr_multiplier
  | none => entry_price * (1 + cfg.stop_loss_percentage / 100)

/-- The stoploss pass of a cycle: for each currently open position, when
`current_price <= dynamic_stoploss`, call `sell_position_with_retry` with
`STOP_LOSS_MAX_RETRIES` and `STOP_LOSS_WAIT_TIME`.  `atrOf` gives the ATR
value computed for each position (the candles are fetched anew per
position and the computation may fail, yielding `none`). -/
def stoplossActions (cfg : Config) (current_price : ℚ)
    (open_positions : List Position) (atrOf : Position → Option ℚ) : List BotAction :=
  open_positions.filterMap (fun pos =>
    if current_price ≤ dynamic_stoploss cfg pos.price (atrOf pos) then
      some (BotAction.sellRetry pos cfg.stop_loss_max_retries cfg.stop_loss_wait_time)
    else none)

/-- The decision pass of a cycle (`if rsi is not None and ema is not None`):
the profit-take branch when `rsi >= RSI_SELL_THRESHOLD and current_price <
ema`, else the entry branch when `rsi <= RSI_BUY_THRESHOLD and
current_price > ema`, which sizes the quantity from the ATR fetched for the
entry (`entry_atr`) and is skipped when that ATR is undefined or the open
position count has reached `MAX_TRADES_PER_PAIR`. -/
def decisionActions (cfg : Config) (current_price : ℚ) (rsi ema : Option ℚ)
    (open_positions : List Position) (entry_atr : Option ℚ) : List BotAction :=
  match rsi, ema with
  | some r, some e =>
    if cfg.rsi_sell_threshold ≤ r ∧ current_price < e then
      open_positions.filterMap (fun pos =>
        if cfg.minimum_profit_percentage ≤
            StateManager.calculate_profit pos.price pos.quantity current_price
              cfg.trade_fee_percentage then
          some (BotAction.sellProfit pos)
        else none)
    else if r ≤ cfg.rsi_buy_threshold ∧ e < current_price then
      if open_positions.length < cfg.max_trades_per_pair then
        match entry_atr with
        | some atr_value =>
          let risk_amount := cfg.total_budget * cfg.risk_percentage
          let risk_per_unit := cfg.atr_multiplier * atr_value
          let dynamic_quantity := risk_amount / risk_per_unit
          let allocated_budget := cfg.pair_budget / (cfg.max_trades_per_pair : ℚ)
          let max_quantity := allocated_budget / current_price
          [BotAction.buyOrder (min dynamic_quantity max_quantity)]
        | none => []
      else []
    else []
  | _, _ => []

/-- Whether the RSI/EMA logging block at the top of the cycle raises:
`if ema is not None:` guards a log line that formats `rsi` with `:.2f`
(and reads `price_str`, assigned only when `rsi is not None`), so when the
EMA is defined while the RSI is not, the f-string raises TypeError (or
NameError).  The only handler of the main loop catches KeyboardInterrupt,
so that exception aborts the cycle — before the stoploss pass — and kills
the bot.  Reachable whenever the EMA window (e.g. ULTRASHORT, period 9)
fills before the RSI window (default 14) during warm-up. -/
def logLineRaises (rsi ema : Option ℚ) : Bool :=
  rsi.isNone && ema.isSome

/-- One full evaluation cycle for a pair.  When the logging block raises
(EMA defined, RSI undefined) the cycle aborts before any order-affecting
call and emits nothing.  Otherwise the stoploss pass over all open
positions runs first, then the profit-take/entry decision pass, both over
the `open_positions` list fetched at the start of the cycle. -/
def cycleActions (cfg : Config) (current_price : ℚ) (rsi ema : Option ℚ)
    (open_positions : List Position) (atrOf : Position → Option ℚ)
    (entry_atr : Option ℚ) : List BotAction :=
  if logLineRaises rsi ema then []
  else
    stoplossActions cfg current_price open_positions atrOf ++
      decisionActions cfg current_price rsi ema open_positions entry_atr

end ScalpingBot

/-! Concrete fixtures used by the witnesses and counterexamples. -/

/-- A market list holding one entry with minimum order size 5 and six
decimal places of quantity precision. -/
def markets0 : List Market :=
  [{ market := "ADA-EUR", minOrderInBaseAsset := 5, decimalPlacesBaseAsset := 6 }]

/-- A filled live order response (holds an orderId, no demo status). -/
def filled0 : Order := { status := none, orderId := some "order1" }

/-- A rejected live order response (no orderId, no demo status). -/
def rejected0 : Order := { status := none, orderId := none }

/-- A concrete open position: entry price 10, quantity 1. -/
def pos1 : Position := { price := 10, quantity := 1, timestamp := 0 }

/-- A flat state for the pair, with empty portfolio and stores. -/
def s0 : BotState :=
  { pair := "ADA-EUR", demo_mode := false, position := none,
    portfolio := [], portfolioFile := [], trades := [] }

/-- A state holding the open position `pos1`, recorded consistently in the
portfolio mapping and the durable file. -/
def s1 : BotState :=
  { s0 with position := some pos1,
            portfolio := [("ADA-EUR", pos1)],
            portfolioFile := [("ADA-EUR", pos1)] }

/-- A concrete configuration with the defaults the source falls back to. -/
def cfg0 : Config :=
  { rsi_sell_threshold := 70, rsi_buy_threshold := 30,
    minimum_profit_percentage := 1, max_trades_per_pair := 1,
    trade_fee_percentage := 0, stop_loss_percentage := -5,
    stop_loss_max_retries := 3, stop_loss_wait_time := 5,
    total_budget := 10000, risk_percentage := 1/100,
    atr_multiplier := 3/2, pair_budget := 500 }

/-- C1: in single-trade mode at most one open position exists per pair
(the manager holds a single optional slot), and a buy attempted while a
position already exists is rejected before any order is placed, leaving
the in-memory position, the portfolio mapping and the durable portfolio
store unchanged. -/
theorem C1_single_position_buy_rejected (s : BotState) (markets : List Market)
    (price budget fee_percentage : ℚ) (now : ℕ) (live : Order)
    (h : s.position.isSome) :
    StateManager.openPositionCount s ≤ 1 ∧
    StateManager.buy s markets price budget fee_percentage now live = (s, false) := by
  refine ⟨?_, ?_⟩
  · unfold StateManager.openPositionCount
    cases s.position <;> simp
  · unfold StateManager.buy
    simp [h]

/-- C1 witness: the rejection at a concrete state holding a position. -/
theorem C1_single_position_buy_rejected_witness :
    StateManager.openPositionCount s1 ≤ 1 ∧
    StateManager.buy s1 markets0 12 100 (1/4) 7 filled0 = (s1, false) :=
  C1_single_position_buy_rejected s1 markets0 12 100 (1/4) 7 filled0 (by decide)

/-- Membership in the stoploss pass: exactly the open positions whose
current price is at or below their dynamic stop, emitted as retrying
sells with the configured retry parameters. -/
theorem mem_stoplossActions_iff (cfg : Config) (current_price : ℚ)
    (ps : List Position) (atrOf : Position → Option ℚ) (p : Position) (r w : ℕ) :
    BotAction.sellRetry p r w ∈ ScalpingBot.stoplossActions cfg current_price ps atrOf ↔
      p ∈ ps ∧ current_price ≤ ScalpingBot.dynamic_stoploss cfg p.price (atrOf p) ∧
        r = cfg.stop_loss_max_retries ∧ w = cfg.stop_loss_wait_time := by
  unfold ScalpingBot.stoplossActions
  rw [List.mem_filterMap]
  constructor
  · rintro ⟨q, hq, hf⟩
    split at hf
    · rcases Option.some.inj hf with h
      cases h
      exact ⟨hq, by assumption, rfl, rfl⟩
    · exact absurd hf (by simp)
  · rintro ⟨hp, hstop, rfl, rfl⟩
    exact ⟨p, hp, by simp [hstop]⟩

/-- Every action of the stoploss pass is a retrying sell. -/
theorem stoplossActions_all_retry (cfg : Config) (current_price : ℚ)
    (ps : List Position) (atrOf : Position → Option ℚ) (a : BotAction)
    (ha : a ∈ ScalpingBot.stoplossActions cfg current_price ps atrOf) :
    a.isStoplossExit = true := by
  unfold ScalpingBot.stoplossActions at ha
  rw [List.mem_filterMap] at ha
  rcases ha with ⟨q, _, hf⟩
  split at hf
  · cases Option.some.inj hf
    rfl
  · exact absurd hf (by simp)

/-- No action of the decision pass is a retrying sell: profit-take exits
are single-attempt sells and entries are buys. -/
theorem decisionActions_no_retry (cfg : Config) (current_price : ℚ)
    (rsi ema : Option ℚ) (ps : List Position) (entry_atr : Option ℚ) (a : BotAction)
    (ha : a ∈ ScalpingBot.decisionActions cfg current_price rsi ema ps entry_atr) :
    a.isStoplossExit = false := by
  unfold ScalpingBot.decisionActions at ha
  cases rsi with
  | none => simp at ha
  | some r =>
    cases ema with
    | none => simp at ha
    | some e =>
      simp only at ha
      split at ha
      · rw [List.mem_filterMap] at ha
        rcases ha with ⟨q, _, hf⟩
        split at hf
        · cases Option.some.inj hf
          rfl
        · exact absurd hf (by simp)
      · split at ha
        · split at ha
          · cases entry_atr with
            | none => simp at ha
            | some atr =>
              simp only [List.mem_singleton] at ha
              cases ha
              rfl
          · simp at ha
        · simp at ha

/-- A profit-take sell emitted by the decision pass implies the sell
branch was taken — `rsi >= RSI_SELL_THRESHOLD`, `current_price < ema` —
for a position of the open list whose computed profit reaches
`MINIMUM_PROFIT_PERCENTAGE`. -/
theorem sellProfit_mem_decision (cfg : Config) (current_price : ℚ) (r e : ℚ)
    (ps : List Position) (entry_atr : Option ℚ) (p : Position)
    (h : BotAction.sellProfit p ∈
      ScalpingBot.decisionActions cfg current_price (some r) (some e) ps entry_atr) :
    cfg.rsi_sell_threshold ≤ r ∧ current_price < e ∧ p ∈ ps ∧
      cfg.minimum_profit_percentage ≤
        StateManager.calculate_profit p.price p.quantity current_price
          cfg.trade_fee_percentage := by
  unfold ScalpingBot.decisionActions at h
  simp only at h
  split at h
  · next hcond =>
    rw [List.mem_filterMap] at h
    rcases h with ⟨q, hq, hf⟩
    split at hf
    · next hprofit =>
      cases Option.some.inj hf
      exact ⟨hcond.1, hcond.2, hq, hprofit⟩
    · exact absurd hf (by simp)
  · split at h
    · split at h
      · cases entry_atr with
        | none => simp at h
        | some atr => simp at h
      · simp at h
    · simp at h

/-- An entry emitted by the decision pass implies the buy branch was
taken with defined RSI, EMA and entry ATR, below the per-pair trade cap,
and its quantity is `min(total_budget*risk_pct/(multiplier*ATR),
(pair_budget/max_trades)/price)`. -/
theorem buyOrder_mem_decision (cfg : Config) (current_price : ℚ)
    (rsi ema : Option ℚ) (ps : List Position) (entry_atr : Option ℚ) (q : ℚ)
    (h : BotAction.buyOrder q ∈
      ScalpingBot.decisionActions cfg current_price rsi ema ps entry_atr) :
    ∃ r e atr_value, rsi = some r ∧ ema = some e ∧ entry_atr = some atr_value ∧
      ¬(cfg.rsi_sell_threshold ≤ r ∧ current_price < e) ∧
      r ≤ cfg.rsi_buy_threshold ∧ e < current_price ∧
      ps.length < cfg.max_trades_per_pair ∧
      q = min (cfg.total_budget * cfg.risk_percentage / (cfg.atr_multiplier * atr_value))
              (cfg.pair_budget / (cfg.max_trades_per_pair : ℚ) / current_price) := by
  unfold ScalpingBot.decisionActions at h
  cases rsi with
  | none => simp at h
  | some r =>
    cases ema with
    | none => simp at h
    | some e =>
      simp only at h
      split at h
      · next hcond =>
        rw [List.mem_filterMap] at h
        rcases h with ⟨x, _, hf⟩
        split at hf
        · exact absurd (Option.some.inj hf) (by simp)
        · exact absurd hf (by simp)
      · next hnosell =>
        split at h
        · next hbuy =>
          split at h
          · next hcap =>
            cases entry_atr with
            | none => simp at h
            | some atr_value =>
              simp only [List.mem_singleton] at h
              cases (BotAction.buyOrder.inj h)
              exact ⟨r, e, atr_value, rfl, rfl, rfl, hnosell, hbuy.1, hbuy.2, hcap, rfl⟩
          · simp at h
        · simp at h

/-- The profit-take branch and the entry branch of one decision pass are
mutually exclusive: the pass never emits both a profit-take sell and an
entry. -/
theorem decision_not_buy_and_sell (cfg : Config) (current_price : ℚ)
    (rsi ema : Option ℚ) (ps : List Position) (entry_atr : Option ℚ)
    (q : ℚ) (p : Position) :
    ¬(BotAction.buyOrder q ∈
        ScalpingBot.decisionActions cfg current_price rsi ema ps entry_atr ∧
      BotAction.sellProfit p ∈
        ScalpingBot.decisionActions cfg current_price rsi ema ps entry_atr) := by
  rintro ⟨hb, hs⟩
  rcases buyOrder_mem_decision cfg current_price rsi ema ps entry_atr q hb with
    ⟨r, e, atr_value, hr, he, _, hnosell, _⟩
  subst hr; subst he
  rcases sellProfit_mem_decision cfg current_price r e ps entry_atr p hs with
    ⟨h1, h2, _, _⟩
  exact hnosell ⟨h1, h2⟩

/-- A profit-take sell or an entry found in the whole cycle comes from the
decision pass (the stoploss pass only emits retrying sells). -/
theorem mem_cycle_to_decision (cfg : Config) (current_price : ℚ)
    (rsi ema : Option ℚ) (ps : List Position) (atrOf : Position → Option ℚ)
    (entry_atr : Option ℚ) (a : BotAction) (hnr : a.isStoplossExit = false)
    (h : a ∈ ScalpingBot.cycleActions cfg current_price rsi ema ps atrOf entry_atr) :
    a ∈ ScalpingBot.decisionActions cfg current_price rsi ema ps entry_atr := by
  unfold ScalpingBot.cycleActions at h
  split at h
  · exact absurd h (List.not_mem_nil a)
  · rcases List.mem_append.mp h with hs | hd
    · exact absurd (stoplossActions_all_retry cfg current_price ps atrOf a hs)
        (by simp [hnr])
    · exact hd

/-- A retrying sell found in the whole cycle comes from the stoploss pass
(the decision pass never emits one). -/
theorem retry_mem_cycle_to_stoploss (cfg : Config) (current_price : ℚ)
    (rsi ema : Option ℚ) (ps : List Position) (atrOf : Position → Option ℚ)
    (entry_atr : Option ℚ) (p : Position) (r w : ℕ)
    (h : BotAction.sellRetry p r w ∈
      ScalpingBot.cycleActions cfg current_price rsi ema ps atrOf entry_atr) :
    BotAction.sellRetry p r w ∈ ScalpingBot.stoplossActions cfg current_price ps atrOf := by
  unfold ScalpingBot.cycleActions at h
  split at h
  · exact absurd h (List.not_mem_nil _)
  · rcases List.mem_append.mp h with hs | hd
    · exact hs
    · exact absurd (decisionActions_no_retry cfg current_price rsi ema ps entry_atr _ hd)
        (by simp [BotAction.isStoplossExit])

/-- A concrete ATR oracle returning ATR 2 for every position. -/
def atr2 : Position → Option ℚ := fun _ => some 2

/-- A concrete ATR oracle with no ATR for any position. -/
def atrNone : Position → Option ℚ := fun _ => none

/-- C2 counterexample: entry price 10, ATR 2, multiplier 3/2 give stop 7
and the price 5 satisfies the trigger condition, yet in a cycle with RSI
undefined and EMA defined no retrying exit is emitted: the logging line
raises first and aborts the cycle, so the claimed equivalence
("regardless of the RSI and EMA values") fails at this input. -/
theorem C2_counterexample :
    ((∃ a, atr2 pos1 = some a ∧ (5 : ℚ) ≤ pos1.price - a * cfg0.atr_multiplier) ∨
     (atr2 pos1 = none ∧
       (5 : ℚ) ≤ pos1.price * (1 + cfg0.stop_loss_percentage / 100))) ∧
    pos1 ∈ [pos1] ∧
    ScalpingBot.logLineRaises none (some 1) = true ∧
    BotAction.sellRetry pos1 cfg0.stop_loss_max_retries cfg0.stop_loss_wait_time ∉
      ScalpingBot.cycleActions cfg0 5 none (some 1) [pos1] atr2 none := by
  refine ⟨Or.inl ⟨2, rfl, by norm_num [pos1, cfg0]⟩, List.mem_singleton.mpr rfl,
    rfl, ?_⟩
  simp [ScalpingBot.cycleActions, ScalpingBot.logLineRaises]

/-- C2 amended: for an open position with entry price E, in any cycle
that does not abort at the RSI/EMA logging line (i.e. unless the RSI is
undefined while the EMA is defined, where a TypeError kills the cycle
before the stoploss pass), the stoploss exit is triggered iff the ATR is
defined with value a and the price is at most `E - a*multiplier`, or the
ATR is undefined and the price is at most `E*(1 + stop_loss_pct/100)`;
the emitted exit is the retrying sell, and the equivalence does not
otherwise depend on the RSI and EMA values. -/
theorem C2_stoploss_trigger_iff (cfg : Config) (current_price : ℚ)
    (rsi ema : Option ℚ) (open_positions : List Position)
    (atrOf : Position → Option ℚ) (entry_atr : Option ℚ) (p : Position)
    (hp : p ∈ open_positions)
    (hnc : ScalpingBot.logLineRaises rsi ema = false) :
    BotAction.sellRetry p cfg.stop_loss_max_retries cfg.stop_loss_wait_time ∈
      ScalpingBot.cycleActions cfg current_price rsi ema open_positions atrOf entry_atr ↔
    ((∃ a, atrOf p = some a ∧ current_price ≤ p.price - a * cfg.atr_multiplier) ∨
     (atrOf p = none ∧
       current_price ≤ p.price * (1 + cfg.stop_loss_percentage / 100))) := by
  constructor
  · intro h
    have hs := retry_mem_cycle_to_stoploss cfg current_price rsi ema open_positions
      atrOf entry_atr _ _ _ h
    rcases (mem_stoplossActions_iff cfg current_price open_positions atrOf p _ _).mp hs
      with ⟨_, hstop, _, _⟩
    unfold ScalpingBot.dynamic_stoploss at hstop
    cases hatr : atrOf p with
    | some a =>
      rw [hatr] at hstop
      exact Or.inl ⟨a, rfl, hstop⟩
    | none =>
      rw [hatr] at hstop
      exact Or.inr ⟨rfl, hstop⟩
  · intro h
    have hstop : current_price ≤ ScalpingBot.dynamic_stoploss cfg p.price (atrOf p) := by
      unfold ScalpingBot.dynamic_stoploss
      rcases h with ⟨a, hatr, hle⟩ | ⟨hatr, hle⟩ <;> rw [hatr] <;> exact hle
    rw [ScalpingBot.cycleActions, if_neg (by simp [hnc])]
    exact List.mem_append.mpr (Or.inl
      ((mem_stoplossActions_iff cfg current_price open_positions atrOf p _ _).mpr
        ⟨hp, hstop, rfl, rfl⟩))

/-- C2 witness: with entry price 10, ATR 2 and multiplier 3/2 the stop is
7, so in a non-aborting cycle (RSI and EMA both undefined) price 5
triggers the retrying stoploss exit. -/
theorem C2_stoploss_trigger_iff_witness :
    BotAction.sellRetry pos1 cfg0.stop_loss_max_retries cfg0.stop_loss_wait_time ∈
      ScalpingBot.cycleActions cfg0 5 none none [pos1] atr2 none :=
  (C2_stoploss_trigger_iff cfg0 5 none none [pos1] atr2 none pos1
    (List.mem_singleton.mpr rfl) rfl).mpr
    (Or.inl ⟨2, rfl, by norm_num [pos1, cfg0]⟩)

/-- C3: an entry decision sizes the ordered quantity as
`min(total_budget*risk_pct/(ATR*multiplier), (pair_budget/max_trades)/price)`;
when the ATR is undefined for the cycle no entry happens at all; and the
spec-modelled `buy_dynamic` submits no order for a non-positive quantity. -/
theorem C3_entry_sizing (cfg : Config) (current_price : ℚ) (rsi ema : Option ℚ)
    (open_positions : List Position) (atrOf : Position → Option ℚ) (a q : ℚ) :
    BotAction.buyOrder q ∉
      ScalpingBot.cycleActions cfg current_price rsi ema open_positions atrOf none
    ∧ (BotAction.buyOrder q ∈
        ScalpingBot.cycleActions cfg current_price rsi ema open_positions atrOf (some a) →
        q = min (cfg.total_budget * cfg.risk_percentage / (a * cfg.atr_multiplier))
                (cfg.pair_budget / (cfg.max_trades_per_pair : ℚ) / current_price))
    ∧ (∀ s minQty fee_percentage now live, q ≤ 0 →
        (StateManager.buy_dynamic s minQty current_price q fee_percentage now live).2
          = false) := by
  refine ⟨?_, ?_, ?_⟩
  · intro h
    have hd := mem_cycle_to_decision cfg current_price rsi ema open_positions atrOf
      none (BotAction.buyOrder q) rfl h
    rcases buyOrder_mem_decision cfg current_price rsi ema open_positions none q hd
      with ⟨_, _, _, _, _, hatr, _⟩
    exact absurd hatr (by simp)
  · intro h
    have hd := mem_cycle_to_decision cfg current_price rsi ema open_positions atrOf
      (some a) (BotAction.buyOrder q) rfl h
    rcases buyOrder_mem_decision cfg current_price rsi ema open_positions (some a) q hd
      with ⟨_, _, atr_value, _, _, hatr, _, _, _, _, hq⟩
    cases Option.some.inj hatr
    rw [hq, mul_comm cfg.atr_multiplier]
  · intro s minQty fee_percentage now live hq
    unfold StateManager.buy_dynamic
    simp [hq]

/-- C4: within one cycle every stoploss exit precedes every profit-take
or entry action; the profit-take branch and the entry branch never both
run; and every position a cycle closes was already open when the cycle
began, so a position opened in a cycle is never also closed in it. -/
theorem C4_cycle_ordering (cfg : Config) (current_price : ℚ) (rsi ema : Option ℚ)
    (open_positions : List Position) (atrOf : Position → Option ℚ)
    (entry_atr : Option ℚ) :
    (∃ k, (∀ a ∈ (ScalpingBot.cycleActions cfg current_price rsi ema open_positions
              atrOf entry_atr).take k, a.isStoplossExit = true) ∧
          (∀ a ∈ (ScalpingBot.cycleActions cfg current_price rsi ema open_positions
              atrOf entry_atr).drop k, a.isStoplossExit = false))
    ∧ (∀ q p, ¬(BotAction.buyOrder q ∈ ScalpingBot.cycleActions cfg current_price rsi
          ema open_positions atrOf entry_atr ∧
        BotAction.sellProfit p ∈ ScalpingBot.cycleActions cfg current_price rsi ema
          open_positions atrOf entry_atr))
    ∧ (∀ p r w, BotAction.sellRetry p r w ∈ ScalpingBot.cycleActions cfg current_price
          rsi ema open_positions atrOf entry_atr → p ∈ open_positions)
    ∧ (∀ p, BotAction.sellProfit p ∈ ScalpingBot.cycleActions cfg current_price rsi ema
          open_positions atrOf entry_atr → p ∈ open_positions) := by
  refine ⟨?_, ?_, ?_, ?_⟩
  · cases hcr : ScalpingBot.logLineRaises rsi ema with
    | true =>
      refine ⟨0, ?_, ?_⟩ <;> intro a ha <;>
        simp [ScalpingBot.cycleActions, hcr] at ha
    | false =>
      refine ⟨(ScalpingBot.stoplossActions cfg current_price open_positions
        atrOf).length, ?_, ?_⟩
      · intro a ha
        rw [ScalpingBot.cycleActions, if_neg (by simp [hcr]), List.take_left] at ha
        exact stoplossActions_all_retry cfg current_price open_positions atrOf a ha
      · intro a ha
        rw [ScalpingBot.cycleActions, if_neg (by simp [hcr]), List.drop_left] at ha
        exact decisionActions_no_retry cfg current_price rsi ema open_positions
          entry_atr a ha
  · rintro q p ⟨hb, hs⟩
    exact decision_not_buy_and_sell cfg current_price rsi ema open_positions entry_atr
      q p
      ⟨mem_cycle_to_decision cfg current_price rsi ema open_positions atrOf entry_atr
         (BotAction.buyOrder q) rfl hb,
       mem_cycle_to_decision cfg current_price rsi ema open_positions atrOf entry_atr
         (BotAction.sellProfit p) rfl hs⟩
  · intro p r w h
    exact ((mem_stoplossActions_iff cfg current_price open_positions atrOf p r w).mp
      (retry_mem_cycle_to_stoploss cfg current_price rsi ema open_positions atrOf
        entry_atr p r w h)).1
  · intro p h
    have hd := mem_cycle_to_decision cfg current_price rsi ema open_positions atrOf
      entry_atr (BotAction.sellProfit p) rfl h
    cases rsi with
    | none => simp [ScalpingBot.decisionActions] at hd
    | some r =>
      cases ema with
      | none => simp [ScalpingBot.decisionActions] at hd
      | some e =>
        exact (sellProfit_mem_decision cfg current_price r e open_positions entry_atr
          p hd).2.2.1

/-- C5: a profit-take exit for an open position happens only when the RSI
is at least the sell threshold, the price is below the EMA, and the
computed profit percentage reaches `MINIMUM_PROFIT_PERCENTAGE`; the profit
percentage is `((P*q*(1-fee/100)) - E*q)/(E*q)*100`; and when it is below
the minimum, no profit-take sell is emitted for that position. -/
theorem C5_profit_take_conditions (cfg : Config) (current_price r e : ℚ)
    (open_positions : List Position) (atrOf : Position → Option ℚ)
    (entry_atr : Option ℚ) (p : Position) :
    (BotAction.sellProfit p ∈ ScalpingBot.cycleActions cfg current_price (some r)
        (some e) open_positions atrOf entry_atr →
      cfg.rsi_sell_threshold ≤ r ∧ current_price < e ∧
        cfg.minimum_profit_percentage ≤
          StateManager.calculate_profit p.price p.quantity current_price
            cfg.trade_fee_percentage)
    ∧ StateManager.calculate_profit p.price p.quantity current_price
        cfg.trade_fee_percentage =
      (current_price * p.quantity * (1 - cfg.trade_fee_percentage / 100)
        - p.price * p.quantity) / (p.price * p.quantity) * 100
    ∧ (StateManager.calculate_profit p.price p.quantity current_price
          cfg.trade_fee_percentage < cfg.minimum_profit_percentage →
        BotAction.sellProfit p ∉ ScalpingBot.cycleActions cfg current_price (some r)
          (some e) open_positions atrOf entry_atr) := by
  refine ⟨?_, rfl, ?_⟩
  · intro h
    have hd := mem_cycle_to_decision cfg current_price (some r) (some e) open_positions
      atrOf entry_atr (BotAction.sellProfit p) rfl h
    rcases sellProfit_mem_decision cfg current_price r e open_positions entry_atr p hd
      with ⟨h1, h2, _, h4⟩
    exact ⟨h1, h2, h4⟩
  · intro hlt h
    have hd := mem_cycle_to_decision cfg current_price (some r) (some e) open_positions
      atrOf entry_atr (BotAction.sellProfit p) rfl h
    rcases sellProfit_mem_decision cfg current_price r e open_positions entry_atr p hd
      with ⟨_, _, _, h4⟩
    exact absurd h4 (not_le.mpr hlt)

/-- C6 (code bug): the RSI guard itself matches the claim — 13 samples
with window 14 yield no result, 14 samples yield one — but insufficient
RSI data IS raised as an error on a reachable path: with the EMA defined
(here 1) and the RSI undefined, the logging line raises and the whole
cycle aborts, emitting nothing, even though the stoploss pass alone would
have emitted the retrying exit for `pos1` at price 5. -/
theorem C6_insufficient_data_raises :
    TradingUtils.calculate_rsi (List.replicate 13 (1 : ℚ)) 14 = none ∧
    (TradingUtils.calculate_rsi (List.replicate 14 (1 : ℚ)) 14).isSome = true ∧
    ScalpingBot.logLineRaises none (some 1) = true ∧
    ScalpingBot.cycleActions cfg0 5 none (some 1) [pos1] atr2 none = [] ∧
    BotAction.sellRetry pos1 cfg0.stop_loss_max_retries cfg0.stop_loss_wait_time ∈
      ScalpingBot.stoplossActions cfg0 5 [pos1] atr2 := by
  refine ⟨by simp [TradingUtils.calculate_rsi],
    by simp [TradingUtils.calculate_rsi], rfl,
    by simp [ScalpingBot.cycleActions, ScalpingBot.logLineRaises], ?_⟩
  exact (mem_stoplossActions_iff cfg0 5 [pos1] atr2 pos1 _ _).mpr
    ⟨List.mem_singleton.mpr rfl, by norm_num [ScalpingBot.dynamic_stoploss, atr2,
      pos1, cfg0], rfl, rfl⟩

/-- Deleting a key shortens the list by the number of entries matching it. -/
theorem delKey_length (l : List (String × Position)) (k : String) :
    (delKey l k).length + l.countP (fun e => e.1 == k) = l.length := by
  induction l with
  | nil => rfl
  | cons x xs ih =>
    by_cases hx : x.1 == k <;>
      simp [delKey, List.filter_cons, List.countP_cons, hx] at * <;> omega

/-- No entry matching the deleted key remains. -/
theorem delKey_countP_zero (l : List (String × Position)) (k : String) :
    (delKey l k).countP (fun e => e.1 == k) = 0 := by
  rw [List.countP_eq_zero]
  intro e he
  have := (List.mem_filter.mp he).2
  simpa using this

/-- Entries under other keys survive the deletion. -/
theorem delKey_preserves (l : List (String × Position)) (k : String)
    (e : String × Position) (he : e ∈ l) (hne : e.1 ≠ k) : e ∈ delKey l k :=
  List.mem_filter.mpr ⟨he, by simpa using hne⟩

/-- C7 counterexample: a successful close at a concrete state — the
position exists, the adjusted quantity is positive and the order response
is filled — removes the portfolio entry but leaves the trades store
unchanged (the trade-logging routine is never invoked by `sell`), so the
claim that exactly one Trade record is appended fails here. -/
theorem C7_counterexample :
    s1.position.isSome = true ∧
    (StateManager.sell s1 markets0 12 0 filled0).1.position = none ∧
    (StateManager.sell s1 markets0 12 0 filled0).1.portfolioFile = [] ∧
    s1.portfolioFile = [("ADA-EUR", pos1)] ∧
    (StateManager.sell s1 markets0 12 0 filled0).1.trades = s1.trades := by
  refine ⟨rfl, ?_, ?_, rfl, ?_⟩ <;>
    norm_num [StateManager.sell, StateManager.adjust_quantity,
      StateManager.place_order, findMarket, pyRound, pyRoundInt, delKey,
      s1, s0, pos1, markets0, filled0] <;> simp

/-- C7 amended: every successful close removes exactly one matching entry
from the durable portfolio store — the store shrinks by one, no entry for
the pair remains, entries of other pairs survive — but no Trade record is
appended: the trades store is left exactly as it was. -/
theorem C7_close_removes_one_entry (s : BotState) (markets : List Market)
    (price fee_percentage : ℚ) (live : Order) (p : Position)
    (hp : s.position = some p)
    (hq : 0 < StateManager.adjust_quantity markets s.pair p.quantity)
    (hdemo : (StateManager.place_order s.demo_mode live).status ≠ some "demo")
    (hid : (StateManager.place_order s.demo_mode live).orderId.isSome)
    (hcount : s.portfolio.countP (fun e => e.1 == s.pair) = 1)
    (hsync : s.portfolioFile = s.portfolio) :
    (StateManager.sell s markets price fee_percentage live).1.portfolioFile.length + 1
        = s.portfolioFile.length
    ∧ (StateManager.sell s markets price fee_percentage live).1.portfolioFile.countP
        (fun e => e.1 == s.pair) = 0
    ∧ (∀ e ∈ s.portfolioFile, e.1 ≠ s.pair →
        e ∈ (StateManager.sell s markets price fee_percentage live).1.portfolioFile)
    ∧ (StateManager.sell s markets price fee_percentage live).1.trades = s.trades
    ∧ (StateManager.sell s markets price fee_percentage live).1.position = none := by
  have hsell : (StateManager.sell s markets price fee_percentage live).1 =
      { s with position := none,
               portfolio := delKey s.portfolio s.pair,
               portfolioFile := delKey s.portfolio s.pair } := by
    unfold StateManager.sell
    rw [hp]
    simp only [if_neg (not_le.mpr hq), if_neg hdemo, if_pos hid]
  rw [hsell]
  refine ⟨?_, delKey_countP_zero s.portfolio s.pair, ?_, rfl, rfl⟩
  · have hlen := delKey_length s.portfolio s.pair
    rw [hcount] at hlen
    show (delKey s.portfolio s.pair).length + 1 = s.portfolioFile.length
    rw [hsync]
    exact hlen
  · intro e he hne
    exact delKey_preserves s.portfolio s.pair e (hsync ▸ he) hne

/-- C7 witness: the amended statement at the concrete state `s1`. -/
theorem C7_close_removes_one_entry_witness :
    (StateManager.sell s1 markets0 12 0 filled0).1.portfolioFile.length + 1
        = s1.portfolioFile.length
    ∧ (StateManager.sell s1 markets0 12 0 filled0).1.portfolioFile.countP
        (fun e => e.1 == s1.pair) = 0
    ∧ (∀ e ∈ s1.portfolioFile, e.1 ≠ s1.pair →
        e ∈ (StateManager.sell s1 markets0 12 0 filled0).1.portfolioFile)
    ∧ (StateManager.sell s1 markets0 12 0 filled0).1.trades = s1.trades
    ∧ (StateManager.sell s1 markets0 12 0 filled0).1.position = none :=
  C7_close_removes_one_entry s1 markets0 12 0 filled0 pos1 rfl
    (by norm_num [StateManager.adjust_quantity, findMarket, pyRound, pyRoundInt,
      s1, s0, pos1, markets0])
    (by simp [StateManager.place_order, s1, s0, filled0])
    (by simp [StateManager.place_order, s1, s0, filled0])
    (by simp [s1, s0, pos1, List.countP, List.countP.go]) rfl

/-- A demo-mode state for the pair, otherwise like `s0`. -/
def sDemo : BotState := { s0 with demo_mode := true }

/-- C8: when the order response is neither a fill (it has no orderId) nor
a demo result, buy and sell leave the whole ledger state — position,
portfolio mapping and durable portfolio file — unchanged. -/
theorem C8_nonfill_no_mutation (s : BotState) (markets : List Market)
    (price budget fee_percentage : ℚ) (now : ℕ) (live : Order)
    (h1 : (StateManager.place_order s.demo_mode live).status ≠ some "demo")
    (h2 : (StateManager.place_order s.demo_mode live).orderId = none) :
    (StateManager.buy s markets price budget fee_percentage now live).1 = s ∧
    (StateManager.sell s markets price fee_percentage live).1 = s := by
  refine ⟨?_, ?_⟩
  · unfold StateManager.buy
    split
    · rfl
    · simp [h1, h2]
      split <;> rfl
  · cases hsp : s.position with
    | none => simp [StateManager.sell, hsp]
    | some p =>
      unfold StateManager.sell
      simp only [hsp]
      split
      · rfl
      · simp [h1, h2]

/-- C8 witness: a rejected live order at a concrete flat state. -/
theorem C8_nonfill_no_mutation_witness :
    (StateManager.buy s0 markets0 1 100 0 0 rejected0).1 = s0 ∧
    (StateManager.sell s0 markets0 1 0 rejected0).1 = s0 :=
  C8_nonfill_no_mutation s0 markets0 1 100 0 0 rejected0
    (by simp [StateManager.place_order, s0, rejected0])
    (by simp [StateManager.place_order, s0, rejected0])

/-- C9 counterexample: with venue minimum 5, a computed quantity of 1 —
below the minimum — is not rejected: `adjust_quantity` silently raises it
to the venue minimum and `buy` submits the order, recording a position of
quantity 5, contradicting the claimed sub-minimum rejection. -/
theorem C9_counterexample :
    StateManager.adjust_quantity markets0 "ADA-EUR" 1 = 5 ∧
    (1 : ℚ) < 5 ∧
    (StateManager.buy s0 markets0 1 1 0 0 filled0).2 = true ∧
    (StateManager.buy s0 markets0 1 1 0 0 filled0).1.position =
      some { price := 1, quantity := 5, timestamp := 0 } := by
  refine ⟨?_, by norm_num, ?_, ?_⟩ <;>
    norm_num [StateManager.buy, StateManager.adjust_quantity, findMarket,
      StateManager.place_order, pyRound, pyRoundInt, setKey, s0, markets0,
      filled0] <;> simp

/-- C9 amended: a quantity that is still non-positive after adjustment is
rejected with no order sent; the adjustment rounds to the venue precision
and then takes the maximum with the venue minimum, so a sub-minimum
request is silently converted into an order at the venue minimum rather
than rejected. -/
theorem C9_quantity_adjustment (markets : List Market) (pair : String)
    (m : Market) (q : ℚ) (hm : findMarket markets pair = some m) :
    StateManager.adjust_quantity markets pair q =
      max m.minOrderInBaseAsset (pyRound q m.decimalPlacesBaseAsset)
    ∧ (∀ s price budget fee_percentage now live, s.pair = pair →
        StateManager.adjust_quantity markets pair
            (budget / price * (1 - fee_percentage / 100)) ≤ 0 →
        StateManager.buy s markets price budget fee_percentage now live
          = (s, false)) := by
  refine ⟨?_, ?_⟩
  · unfold StateManager.adjust_quantity
    rw [hm]
  · intro s price budget fee_percentage now live hpair hq
    unfold StateManager.buy
    split
    · rfl
    · rw [hpair, if_pos hq]

/-- C9 witness: the adjustment formula at the concrete market list. -/
theorem C9_quantity_adjustment_witness :
    StateManager.adjust_quantity markets0 "ADA-EUR" (7/2) =
      max (5 : ℚ) (pyRound (7/2) 6) :=
  (C9_quantity_adjustment markets0 "ADA-EUR"
    { market := "ADA-EUR", minOrderInBaseAsset := 5, decimalPlacesBaseAsset := 6 }
    (7/2) (by simp [findMarket, markets0])).1

/-- C10: in demo mode the simulated order response always has status
"demo", and neither buy nor sell mutates the ledger state: the position,
the portfolio mapping and the durable portfolio file stay exactly as they
were. -/
theorem C10_demo_no_mutation (s : BotState) (markets : List Market)
    (price budget fee_percentage : ℚ) (now : ℕ) (live : Order)
    (hd : s.demo_mode = true) :
    (StateManager.place_order s.demo_mode live).status = some "demo" ∧
    (StateManager.buy s markets price budget fee_percentage now live).1 = s ∧
    (StateManager.sell s markets price fee_percentage live).1 = s := by
  have hord : StateManager.place_order s.demo_mode live =
      { status := some "demo", orderId := none } := by
    simp [StateManager.place_order, hd]
  refine ⟨by rw [hord], ?_, ?_⟩
  · unfold StateManager.buy
    split
    · rfl
    · simp [hord]
      split <;> rfl
  · cases hsp : s.position with
    | none => simp [StateManager.sell, hsp]
    | some p =>
      unfold StateManager.sell
      simp only [hsp]
      split
      · rfl
      · simp [hord]

/-- C10 witness: a demo-mode state at concrete inputs. -/
theorem C10_demo_no_mutation_witness :
    (StateManager.place_order sDemo.demo_mode filled0).status = some "demo" ∧
    (StateManager.buy sDemo markets0 2 100 (1/4) 3 filled0).1 = sDemo ∧
    (StateManager.sell sDemo markets0 2 (1/4) filled0).1 = sDemo :=
  C10_demo_no_mutation sDemo markets0 2 100 (1/4) 3 filled0 rfl
